import Mathlib

set_option maxHeartbeats 1000000
set_option maxRecDepth 100000

/-!
Shallow embedding of the nonce-challenge authentication backend
(src/backend/main.go): the in-memory user registry, input validation,
the `Authenticate` flow with nonce rotation, the HTTP-facing handlers'
status classification, JWT verification, and a two-thread interleaving
model of concurrent sign-in.
-/

namespace Backend

/-- The package-level error values of main.go, plus the two externally
produced error classes `Authenticate` can propagate: a `rand.Int` failure
(`entropyError`) and a `crypto.SigToPub` failure (`sigRecoveryError`). -/
inductive GoError where
  | userNotExists
  | userExists
  | invalidAddress
  | invalidNonce
  | missingSig
  | authError
  | entropyError
  | sigRecoveryError
deriving DecidableEq

/-- Go `type User struct { Address string; Nonce string }`. -/
structure User where
  Address : String
  Nonce : String
deriving DecidableEq

/-- The zero value `User{}` that a failed map read in Go yields. -/
def emptyUser : User := { Address := "", Nonce := "" }

/-- The `users` map of `MemStorage`, embedded as an association list whose
keys stay unique because `insert` replaces an existing binding in place. -/
abbrev Storage := List (String × User)

def Storage.lookup : Storage → String → Option User
  | [], _ => none
  | (k, u) :: rest, a => if k = a then some u else Storage.lookup rest a

def Storage.insert : Storage → String → User → Storage
  | [], k, u => [(k, u)]
  | (k', u') :: rest, k, u =>
      if k' = k then (k, u) :: rest else (k', u') :: Storage.insert rest k u

/-- `MemStorage.Get`: returns the found user and nil, or the zero user and
`ErrUserNotExists`; the whole body runs under the read lock. -/
def Storage.get (m : Storage) (a : String) : User × Option GoError :=
  match Storage.lookup m a with
  | some u => (u, none)
  | none => (emptyUser, some .userNotExists)

/-- `MemStorage.CreateIfNotExists`: check-and-insert, whose whole body runs
under the write lock, hence a single atomic step. -/
def Storage.createIfNotExists (m : Storage) (u : User) : Except GoError Storage :=
  match Storage.lookup m u.Address with
  | some _ => .error .userExists
  | none => .ok (Storage.insert m u.Address u)

/-- `MemStorage.Update`: map assignment keyed on `user.Address`, under the
write lock. -/
def Storage.update (m : Storage) (u : User) : Storage := Storage.insert m u.Address u

/-- ASCII lowercasing of one character. -/
def toLowerChar (c : Char) : Char :=
  if 65 ≤ c.toNat && c.toNat ≤ 90 then Char.ofNat (c.toNat + 32) else c

/-- Go `strings.ToLower` on the ASCII strings this program feeds it
(hex addresses and `common.Address.Hex()` output), where Unicode and
ASCII lowercasing agree. -/
def goToLower (s : String) : String := String.mk (s.toList.map toLowerChar)

/-! ## Input validation (the two regexps of main.go) -/

/-- One character of `[a-fA-F0-9]`. -/
def isHexChar (c : Char) : Bool :=
  (48 ≤ c.toNat && c.toNat ≤ 57) || (97 ≤ c.toNat && c.toNat ≤ 102) ||
    (65 ≤ c.toNat && c.toNat ≤ 70)

/-- Go `hexRegex.MatchString`, pattern `^0x[a-fA-F0-9]{40}$`. -/
def matchHexRegex (s : String) : Bool :=
  match s.toList with
  | '0' :: 'x' :: rest => rest.length = 40 && rest.all isHexChar
  | _ => false

/-- Go `nonceRegex.MatchString`, pattern `^[0-9]+$`. -/
def matchNonceRegex (s : String) : Bool :=
  !s.isEmpty && s.toList.all (fun c => 48 ≤ c.toNat && c.toNat ≤ 57)

/-! ## Hex decoding of the signature (`hexutil.MustDecode`)

`hexutil.Decode` demands a `0x`/`0X` prefix and an even run of hex digits;
`MustDecode` panics on any decode error, which the embedding surfaces as
`none` here and as the `crash` outcome in `Authenticate`. -/

def hexDigitVal (c : Char) : Option Nat :=
  if 48 ≤ c.toNat && c.toNat ≤ 57 then some (c.toNat - 48)
  else if 97 ≤ c.toNat && c.toNat ≤ 102 then some (c.toNat - 87)
  else if 65 ≤ c.toNat && c.toNat ≤ 70 then some (c.toNat - 55)
  else none

def decodeHexChars : List Char → Option (List Nat)
  | [] => some []
  | [_] => none
  | c1 :: c2 :: rest => do
      let h ← hexDigitVal c1
      let l ← hexDigitVal c2
      let tail ← decodeHexChars rest
      pure ((16 * h + l) :: tail)

def MustDecode (s : String) : Option (List Nat) :=
  match s.toList with
  | '0' :: 'x' :: rest => decodeHexChars rest
  | '0' :: 'X' :: rest => decodeHexChars rest
  | _ => none

/-- `sig[crypto.RecoveryIDOffset] -= 27` with Go byte wraparound; the index
is 64, so a decoded signature shorter than 65 bytes panics (`none`). -/
def subV (sig : List Nat) : Option (List Nat) :=
  if 64 < sig.length then some (sig.set 64 ((sig.getD 64 0 + 229) % 256))
  else none

/-! ## The external go-ethereum crypto primitives, as an oracle -/

abbrev PubKey := String

/-- The go-ethereum primitives `Authenticate` calls, kept abstract: the
personal-sign message hash, public-key recovery (`none` models the library
returning an error for an undecodable signature), and the address of a
recovered key as the mixed-case `.Hex()` string. -/
structure EthCrypto where
  TextHash : String → List Nat
  SigToPub : List Nat → List Nat → Option PubKey
  PubkeyToAddressHex : PubKey → String

/-! ## Authenticate -/

/-- Outcome of `Authenticate`: the Go pair (User, error) with error nil
(`ok`) or non-nil (`fail`), or a runtime panic (`crash`). -/
inductive AuthResult where
  | ok (user : User)
  | fail (user : User) (e : GoError)
  | crash
deriving DecidableEq

/-- One sign-in attempt's inputs, together with the value this attempt's
`GetNonce()` call would produce (`none` models an entropy failure). -/
structure SigninInput where
  address : String
  nonce : String
  sigHex : String
  freshNonce : Option String
deriving DecidableEq

/-- Everything `Authenticate` does after its `storage.Get`, acting on the
user value it read: nonce check, signature decode, `v`-offset fixup,
recovery, address match, nonce rotation and `storage.Update`. -/
def authRest (C : EthCrypto) (inp : SigninInput) (user : User) (storage : Storage) :
    AuthResult × Storage :=
  if user.Nonce != inp.nonce then (.fail user .authError, storage)
  else
    match MustDecode inp.sigHex with
    | none => (.crash, storage)
    | some sig0 =>
      match subV sig0 with
      | none => (.crash, storage)
      | some sig =>
        match C.SigToPub (C.TextHash inp.nonce) sig with
        | none => (.fail user .sigRecoveryError, storage)
        | some pub =>
          if user.Address != goToLower (C.PubkeyToAddressHex pub) then
            (.fail user .authError, storage)
          else
            match inp.freshNonce with
            | none => (.fail user .entropyError, storage)
            | some newNonce =>
              let user' : User := { user with Nonce := newNonce }
              (.ok user', Storage.update storage user')

/-- `Authenticate(storage, address, nonce, sigHex)` from main.go, with the
crypto oracle and the `GetNonce()` outcome passed explicitly. -/
def Authenticate (C : EthCrypto) (nonceGen : Option String) (storage : Storage)
    (address nonce sigHex : String) : AuthResult × Storage :=
  match Storage.get storage address with
  | (u, some e) => (.fail u e, storage)
  | (user, none) =>
      authRest C { address := address, nonce := nonce, sigHex := sigHex,
                   freshNonce := nonceGen } user storage

/-! ## Handlers (status classification; body parsing is out of scope) -/

inductive Status where
  | ok
  | created
  | badRequest
  | unauthorized
  | notFound
  | conflict
  | internalServerError
deriving DecidableEq

/-- A handler either writes a status or the request goroutine panics. -/
inductive HandlerResult where
  | status (s : Status)
  | crash
deriving DecidableEq

structure RegisterPayload where
  Address : String
deriving DecidableEq

def RegisterPayload.Validate (p : RegisterPayload) : Option GoError :=
  if !matchHexRegex p.Address then some .invalidAddress else none

/-- `RegisterHandler`, after body decoding: validate, draw a nonce, store
the lowercased address. -/
def RegisterHandler (nonceGen : Option String) (storage : Storage)
    (p : RegisterPayload) : Status × Storage :=
  match p.Validate with
  | some _ => (.badRequest, storage)
  | none =>
    match nonceGen with
    | none => (.internalServerError, storage)
    | some nonce =>
      let u : User := { Address := goToLower p.Address, Nonce := nonce }
      match Storage.createIfNotExists storage u with
      | .error e => if e == .userExists then (.conflict, storage)
                    else (.internalServerError, storage)
      | .ok storage' => (.created, storage')

/-- `UserNonceHandler`: validate the path address, look up its lowercase
form, return the stored nonce. -/
def UserNonceHandler (storage : Storage) (address : String) : Status × Option String :=
  if !matchHexRegex address then (.badRequest, none)
  else
    match Storage.get storage (goToLower address) with
    | (_, some e) => if e == .userNotExists then (.notFound, none)
                     else (.internalServerError, none)
    | (u, none) => (.ok, some u.Nonce)

structure SigninPayload where
  Address : String
  Nonce : String
  Sig : String
deriving DecidableEq

def SigninPayload.Validate (p : SigninPayload) : Option GoError :=
  if !matchHexRegex p.Address then some .invalidAddress
  else if !matchNonceRegex p.Nonce then some .invalidNonce
  else if p.Sig.length = 0 then some .missingSig
  else none

/-- `SigninHandler`, after body decoding: validate, lowercase the address,
authenticate, then classify: nil error issues a token (`tokenGen` is the
`CreateStandard` outcome), `ErrAuthError` maps to 401, anything else to
500; a panic inside `Authenticate` propagates. -/
def SigninHandler (C : EthCrypto) (nonceGen : Option String) (tokenGen : Option String)
    (storage : Storage) (p : SigninPayload) : HandlerResult × Storage :=
  match p.Validate with
  | some _ => (.status .badRequest, storage)
  | none =>
    match Authenticate C nonceGen storage (goToLower p.Address) p.Nonce p.Sig with
    | (.crash, storage') => (.crash, storage')
    | (.fail _ e, storage') =>
        if e == .authError then (.status .unauthorized, storage')
        else (.status .internalServerError, storage')
    | (.ok _, storage') =>
        match tokenGen with
        | none => (.status .internalServerError, storage')
        | some _ => (.status .ok, storage')

/-! ## JWT verification (`JwtHmacProvider.Verify`)

The golang-jwt library is an external dependency; its parse pipeline is
modelled abstractly over the parse outcome of a token string: the header's
algorithm, the registered claims, whether the signature verifies under the
provider's secret with that algorithm, and whether claims validation fails
at verification time (expiry). -/

inductive JwtAlg where
  | HS256
  | HS384
  | HS512
  | algNone
  | RS256
  | ES256
  | other
deriving DecidableEq

/-- Whether the method is an instance of `*jwt.SigningMethodHMAC`, the
family the keyfunc in `Verify` pins. `alg: none` is not. -/
def JwtAlg.isHMAC : JwtAlg → Bool
  | .HS256 => true
  | .HS384 => true
  | .HS512 => true
  | _ => false

structure RegisteredClaims where
  Issuer : String
  Subject : String
  IssuedAt : Nat
  ExpiresAt : Nat
deriving DecidableEq

/-- Parse outcome of a token string: structurally malformed, or a token
with a stated algorithm, claims, signature validity under the provider's
secret, and expiry status at verification time. -/
inductive ParsedToken where
  | malformed
  | token (alg : JwtAlg) (claims : RegisteredClaims) (sigValid : Bool) (expired : Bool)
deriving DecidableEq

/-- Distinct failure causes of the library's `ParseWithClaims`. -/
inductive JwtLibError where
  | malformedToken
  | keyfuncReject
  | badSignature
  | expiredToken
deriving DecidableEq

/-- `jwt.ParseWithClaims` with the keyfunc of `JwtHmacProvider.Verify`:
reject malformed tokens; the keyfunc rejects any method that is not
`*jwt.SigningMethodHMAC` (including `none`); then signature verification
and claims (expiry) validation. -/
def jwtParseWithClaims : ParsedToken → Except JwtLibError RegisteredClaims
  | .malformed => .error .malformedToken
  | .token alg claims sigValid expired =>
    if !alg.isHMAC then .error .keyfuncReject
    else if !sigValid then .error .badSignature
    else if expired then .error .expiredToken
    else .ok claims

/-- `JwtHmacProvider.Verify`: any parse error collapses to `ErrAuthError`;
a valid token yields its claims. -/
def Verify (t : ParsedToken) : Except GoError RegisteredClaims :=
  match jwtParseWithClaims t with
  | .error _ => .error .authError
  | .ok claims => .ok claims

/-- Stated from the spec's words for `verify`: only a well-formed,
unexpired token MAC-signed with the provider's secret yields its claims;
every other token yields the single opaque `AuthError`. -/
def verifySpec (t : ParsedToken) : Except GoError RegisteredClaims :=
  match t with
  | .token alg claims true false =>
      if alg.isHMAC then .ok claims else .error .authError
  | _ => .error .authError

/-! ## Two-thread interleaving model of concurrent sign-in

`Authenticate` takes the registry lock only inside `storage.Get` and
`storage.Update`; everything between runs on the thread's local copy of
the user. A thread is therefore two atomic steps: the `Get`, and the rest
(local checks plus, on success, the `Update`). -/

inductive ThreadState where
  | start
  | gotUser (user : User)
  | done (r : AuthResult)
deriving DecidableEq

/-- One atomic step of a sign-in thread against the shared storage. -/
def stepThread (C : EthCrypto) (inp : SigninInput) :
    ThreadState → Storage → ThreadState × Storage
  | .start, storage =>
    match Storage.get storage inp.address with
    | (u, some e) => (.done (.fail u e), storage)
    | (user, none) => (.gotUser user, storage)
  | .gotUser user, storage =>
    match authRest C inp user storage with
    | (r, storage') => (.done r, storage')
  | .done r, storage => (.done r, storage)

/-- Two sign-in threads sharing one registry. -/
structure Sys where
  t1 : ThreadState
  t2 : ThreadState
  storage : Storage
deriving DecidableEq

/-- Run the thread the scheduler picks (`true` = thread 1) for one step. -/
def schedStep (C : EthCrypto) (i1 i2 : SigninInput) (sys : Sys) (who : Bool) : Sys :=
  if who then
    match stepThread C i1 sys.t1 sys.storage with
    | (t', s') => { sys with t1 := t', storage := s' }
  else
    match stepThread C i2 sys.t2 sys.storage with
    | (t', s') => { sys with t2 := t', storage := s' }

/-- Run a whole schedule. -/
def runSched (C : EthCrypto) (i1 i2 : SigninInput) : Sys → List Bool → Sys
  | sys, [] => sys
  | sys, w :: ws => runSched C i1 i2 (schedStep C i1 i2 sys w) ws

/-! ## Concrete fixtures for witnesses and counterexamples -/

/-- A valid, already-lowercase address. -/
def addrA : String := "0xaaaaaaaaaaaaaaaaaaaaaaaaaaaaaaaaaaaaaaaa"

/-- A well-formed signature hex string: 65 zero bytes. -/
def sigOk : String := "0x" ++ String.mk (List.replicate 130 '0')

/-- A crypto oracle under which `sigOk` recovers to `addrA`. -/
def C0 : EthCrypto :=
  { TextHash := fun _ => []
    SigToPub := fun _ _ => some "pk"
    PubkeyToAddressHex := fun _ => addrA }

/-- A crypto oracle whose recovery always fails (undecodable curve point). -/
def Cbad : EthCrypto :=
  { TextHash := fun _ => []
    SigToPub := fun _ _ => none
    PubkeyToAddressHex := fun _ => addrA }

/-- A valid address different from `addrA`. -/
def addrB : String := "0xbbbbbbbbbbbbbbbbbbbbbbbbbbbbbbbbbbbbbbbb"

/-- A crypto oracle under which every signature recovers to `addrB`. -/
def Cother : EthCrypto :=
  { TextHash := fun _ => []
    SigToPub := fun _ _ => some "pk"
    PubkeyToAddressHex := fun _ => addrB }

/-- The registered user the concrete runs start from. -/
def u0 : User := { Address := addrA, Nonce := "1" }

/-! ## Registry lemmas -/

theorem Storage.lookup_insert_self (m : Storage) (k : String) (u : User) :
    Storage.lookup (Storage.insert m k u) k = some u := by
  induction m with
  | nil => simp [Storage.insert, Storage.lookup]
  | cons p rest ih =>
    obtain ⟨k', u'⟩ := p
    by_cases h : k' = k <;> simp [Storage.insert, Storage.lookup, h, ih]

/-! ## Inversion lemmas for `authRest` -/

theorem authRest_ok_inv (C : EthCrypto) (inp : SigninInput) (user : User)
    (m : Storage) (u' : User) (m' : Storage)
    (h : authRest C inp user m = (.ok u', m')) :
    ∃ g, inp.freshNonce = some g ∧ user.Nonce = inp.nonce ∧
      u' = { user with Nonce := g } ∧ m' = Storage.insert m user.Address u' := by
  unfold authRest at h
  split at h
  · simp at h
  · rename_i hnonce
    split at h
    · simp at h
    · split at h
      · simp at h
      · split at h
        · simp at h
        · split at h
          · simp at h
          · split at h
            · simp at h
            · rename_i g hg
              simp only [Prod.mk.injEq, AuthResult.ok.injEq] at h
              refine ⟨g, hg, ?_, h.1.symm, ?_⟩
              · simpa using hnonce
              · rw [← h.2, ← h.1]
                rfl

theorem authRest_nonce_ne (C : EthCrypto) (inp : SigninInput) (user : User)
    (m : Storage) (h : user.Nonce ≠ inp.nonce) :
    authRest C inp user m = (.fail user .authError, m) := by
  unfold authRest
  simp [h]

theorem Authenticate_lookup_some (C : EthCrypto) (ng : Option String) (m : Storage)
    (a n s : String) (user : User) (h : Storage.lookup m a = some user) :
    Authenticate C ng m a n s =
      authRest C { address := a, nonce := n, sigHex := s, freshNonce := ng } user m := by
  unfold Authenticate Storage.get
  rw [h]

theorem Authenticate_lookup_none (C : EthCrypto) (ng : Option String) (m : Storage)
    (a n s : String) (h : Storage.lookup m a = none) :
    Authenticate C ng m a n s = (.fail emptyUser .userNotExists, m) := by
  unfold Authenticate Storage.get
  rw [h]

theorem authRest_entropy (C : EthCrypto) (inp : SigninInput) (user : User)
    (m : Storage) (sig0 sig : List Nat) (pub : PubKey)
    (hn : user.Nonce = inp.nonce)
    (hdec : MustDecode inp.sigHex = some sig0)
    (hsub : subV sig0 = some sig)
    (hrec : C.SigToPub (C.TextHash inp.nonce) sig = some pub)
    (haddr : user.Address = goToLower (C.PubkeyToAddressHex pub))
    (hfresh : inp.freshNonce = none) :
    authRest C inp user m = (.fail user .entropyError, m) := by
  unfold authRest
  rw [hn, hdec]
  simp [hsub, hrec, haddr, hfresh]

theorem authRest_addr_ne (C : EthCrypto) (inp : SigninInput) (user : User)
    (m : Storage) (sig0 sig : List Nat) (pub : PubKey)
    (hn : user.Nonce = inp.nonce)
    (hdec : MustDecode inp.sigHex = some sig0)
    (hsub : subV sig0 = some sig)
    (hrec : C.SigToPub (C.TextHash inp.nonce) sig = some pub)
    (haddr : user.Address ≠ goToLower (C.PubkeyToAddressHex pub)) :
    authRest C inp user m = (.fail user .authError, m) := by
  unfold authRest
  rw [hn, hdec]
  simp [hsub, hrec, haddr]

theorem authRest_ok (C : EthCrypto) (inp : SigninInput) (user : User)
    (m : Storage) (sig0 sig : List Nat) (pub : PubKey) (g' : String)
    (hn : user.Nonce = inp.nonce)
    (hdec : MustDecode inp.sigHex = some sig0)
    (hsub : subV sig0 = some sig)
    (hrec : C.SigToPub (C.TextHash inp.nonce) sig = some pub)
    (haddr : user.Address = goToLower (C.PubkeyToAddressHex pub))
    (hfresh : inp.freshNonce = some g') :
    authRest C inp user m =
      (.ok { user with Nonce := g' }, Storage.update m { user with Nonce := g' }) := by
  unfold authRest
  rw [hn, hdec]
  simp [hsub, hrec, haddr, hfresh]

theorem SigninHandler_ok (C : EthCrypto) (ng : Option String) (tok : String)
    (m : Storage) (p : SigninPayload) (u' : User) (m' : Storage)
    (hv : p.Validate = none)
    (h : Authenticate C ng m (goToLower p.Address) p.Nonce p.Sig = (.ok u', m')) :
    SigninHandler C ng (some tok) m p = (.status .ok, m') := by
  unfold SigninHandler
  rw [hv, h]

theorem SigninHandler_authError (C : EthCrypto) (ng tg : Option String)
    (m : Storage) (p : SigninPayload) (u : User) (m' : Storage)
    (hv : p.Validate = none)
    (h : Authenticate C ng m (goToLower p.Address) p.Nonce p.Sig = (.fail u .authError, m')) :
    SigninHandler C ng tg m p = (.status .unauthorized, m') := by
  unfold SigninHandler
  rw [hv, h]
  simp

theorem SigninHandler_fail_other (C : EthCrypto) (ng tg : Option String)
    (m : Storage) (p : SigninPayload) (u : User) (e : GoError) (m' : Storage)
    (hv : p.Validate = none) (he : e ≠ .authError)
    (h : Authenticate C ng m (goToLower p.Address) p.Nonce p.Sig = (.fail u e, m')) :
    SigninHandler C ng tg m p = (.status .internalServerError, m') := by
  unfold SigninHandler
  rw [hv, h]
  simp [he]

/-! ## Claim theorems -/

/-- Claim C1: a successful authentication stores the freshly generated
nonce for the user before returning success, so replaying the same
(address, nonce, signature) triple sequentially fails the nonce check with
`AuthError` — provided the fresh nonce differs from the consumed one, which
is what "freshly generated" guarantees up to the 2⁻¹³⁰ collision of the
random draw. -/
theorem c1_rotation_prevents_replay (C : EthCrypto) (g : String)
    (ng' : Option String) (storage : Storage) (address nonce sigHex : String)
    (u' : User) (storage' : Storage)
    (hwf : ∀ u, Storage.lookup storage address = some u → u.Address = address)
    (hsucc : Authenticate C (some g) storage address nonce sigHex = (.ok u', storage')) :
    u'.Nonce = g ∧ Storage.lookup storage' address = some u' ∧
      (g ≠ nonce →
        Authenticate C ng' storage' address nonce sigHex =
          (.fail u' .authError, storage')) := by
  cases hlu : Storage.lookup storage address with
  | none =>
      rw [Authenticate_lookup_none C (some g) storage address nonce sigHex hlu] at hsucc
      simp at hsucc
  | some user =>
      rw [Authenticate_lookup_some C (some g) storage address nonce sigHex user hlu] at hsucc
      obtain ⟨g', hg', _, hu', hm'⟩ := authRest_ok_inv _ _ _ _ _ _ hsucc
      simp only [Option.some.injEq] at hg'
      subst hg'
      have ha : user.Address = address := hwf user hlu
      have hlu' : Storage.lookup storage' address = some u' := by
        rw [hm', ha]
        exact Storage.lookup_insert_self storage address u'
      have hnon : u'.Nonce = g := by rw [hu']
      refine ⟨hnon, hlu', fun hgn => ?_⟩
      rw [Authenticate_lookup_some C ng' storage' address nonce sigHex u' hlu']
      exact authRest_nonce_ne C _ u' storage' (by rw [hnon]; exact hgn)

/-- Witness for C1: a concrete successful sign-in on nonce "1" rotating to
"2", after which replaying the same triple fails with `AuthError`. -/
theorem c1_rotation_prevents_replay_witness :
    ({ Address := addrA, Nonce := "2" } : User).Nonce = "2" ∧
    Storage.lookup [(addrA, { Address := addrA, Nonce := "2" })] addrA =
      some { Address := addrA, Nonce := "2" } ∧
    Authenticate C0 (some "3") [(addrA, { Address := addrA, Nonce := "2" })] addrA "1" sigOk =
      (.fail { Address := addrA, Nonce := "2" } .authError,
       [(addrA, { Address := addrA, Nonce := "2" })]) :=
  have h :=
    c1_rotation_prevents_replay C0 "2" (some "3") [(addrA, u0)] addrA "1" sigOk
      { Address := addrA, Nonce := "2" } [(addrA, { Address := addrA, Nonce := "2" })]
      (by intro u h
          simp [Storage.lookup] at h
          subst h
          decide)
      (by decide)
  ⟨h.1, h.2.1, h.2.2 (by decide)⟩

/-- Claim C2 (refuted by the code): with a registered user and a matching
nonce, a non-hex signature makes `Authenticate` panic inside
`hexutil.MustDecode`; a decodable but short signature panics at the
recovery-id index; and a 65-byte signature the curve rejects surfaces as a
500 internal error from `SigninHandler` — in no case a
SignatureFormatError-classified client failure. -/
theorem c2_malformed_signature_crashes :
    Authenticate C0 (some "2") [(addrA, u0)] addrA "1" "zz" = (.crash, [(addrA, u0)]) ∧
    Authenticate C0 (some "2") [(addrA, u0)] addrA "1" "0x00" = (.crash, [(addrA, u0)]) ∧
    SigninHandler Cbad (some "2") (some "tok") [(addrA, u0)]
        { Address := addrA, Nonce := "1", Sig := sigOk } =
      (.status .internalServerError, [(addrA, u0)]) :=
  ⟨by decide, by decide, by decide⟩

/-- First racing sign-in attempt: the stale nonce "1", rotating to "7". -/
def raceIn1 : SigninInput :=
  { address := addrA, nonce := "1", sigHex := sigOk, freshNonce := some "7" }

/-- Second racing sign-in attempt: the same stale nonce "1", rotating to "8". -/
def raceIn2 : SigninInput :=
  { address := addrA, nonce := "1", sigHex := sigOk, freshNonce := some "8" }

/-- Claim C3 (refuted by the code): `Authenticate` holds no lock from its
`storage.Get` to its `storage.Update`, so under the interleaving
Get₁ Get₂ rest₁ rest₂ both threads read the same stale nonce, both pass
the nonce check, and both sign-in attempts succeed. -/
theorem c3_race_both_succeed :
    (runSched C0 raceIn1 raceIn2
        { t1 := .start, t2 := .start, storage := [(addrA, u0)] }
        [true, false, true, false]).t1 =
      .done (.ok { Address := addrA, Nonce := "7" }) ∧
    (runSched C0 raceIn1 raceIn2
        { t1 := .start, t2 := .start, storage := [(addrA, u0)] }
        [true, false, true, false]).t2 =
      .done (.ok { Address := addrA, Nonce := "8" }) :=
  ⟨by decide, by decide⟩

/-- Claim C4: when every check up to the address match passes but drawing
the replacement nonce fails, `Authenticate` returns the entropy error —
which `SigninHandler` classifies as a 500 internal failure, not a
success — and the registry, hence the user's stored nonce, is unchanged. -/
theorem c4_rotation_failure_is_internal_and_keeps_nonce (C : EthCrypto)
    (tg : Option String) (storage : Storage) (p : SigninPayload) (u : User)
    (sig0 sig : List Nat) (pub : PubKey)
    (hv : p.Validate = none)
    (hlu : Storage.lookup storage (goToLower p.Address) = some u)
    (hn : u.Nonce = p.Nonce)
    (hdec : MustDecode p.Sig = some sig0)
    (hsub : subV sig0 = some sig)
    (hrec : C.SigToPub (C.TextHash p.Nonce) sig = some pub)
    (haddr : u.Address = goToLower (C.PubkeyToAddressHex pub)) :
    Authenticate C none storage (goToLower p.Address) p.Nonce p.Sig =
      (.fail u .entropyError, storage) ∧
    SigninHandler C none tg storage p = (.status .internalServerError, storage) := by
  have hauth :
      Authenticate C none storage (goToLower p.Address) p.Nonce p.Sig =
        (.fail u .entropyError, storage) := by
    rw [Authenticate_lookup_some C none storage (goToLower p.Address) p.Nonce p.Sig u hlu]
    exact authRest_entropy C _ u storage sig0 sig pub hn hdec hsub hrec haddr rfl
  exact ⟨hauth,
    SigninHandler_fail_other C none tg storage p u .entropyError storage hv
      (by simp) hauth⟩

/-- Witness for C4: a concrete sign-in whose entropy source fails after
the address match; it ends in a 500 and the stored nonce stays "1". -/
theorem c4_rotation_failure_witness :
    Authenticate C0 none [(addrA, u0)] (goToLower addrA) "1" sigOk =
      (.fail u0 .entropyError, [(addrA, u0)]) ∧
    SigninHandler C0 none (some "tok") [(addrA, u0)]
        { Address := addrA, Nonce := "1", Sig := sigOk } =
      (.status .internalServerError, [(addrA, u0)]) :=
  c4_rotation_failure_is_internal_and_keeps_nonce C0 (some "tok") [(addrA, u0)]
    { Address := addrA, Nonce := "1", Sig := sigOk } u0
    (List.replicate 65 0) (List.replicate 64 0 ++ [229]) "pk"
    (by decide) (by decide) (by decide) (by decide) (by decide) rfl (by decide)

/-- Claim C5: `Verify` agrees pointwise with the spec-level classifier:
only a well-formed, unexpired token whose algorithm is in the pinned HMAC
family and whose MAC verifies under the provider's secret yields its
claims; every other parse outcome — bad signature, non-HMAC algorithm
(including `none`), expired, malformed — collapses to the one opaque
`AuthError`. -/
theorem c5_verify_fails_closed (t : ParsedToken) : Verify t = verifySpec t := by
  cases t with
  | malformed => rfl
  | token alg claims sigValid expired =>
      cases alg <;> cases sigValid <;> cases expired <;> rfl

/-- Claim C6: for a registered address, both a submitted nonce differing
from the stored one as an exact string and a well-formed signature whose
recovered address, lowercased, differs from the claimed address fail with
`AuthError`, which `SigninHandler` maps to 401 Unauthorized — never 500. -/
theorem c6_mismatches_give_unauthorized (C : EthCrypto) (ng tg : Option String)
    (storage : Storage) (p : SigninPayload) (u : User)
    (hv : p.Validate = none)
    (hlu : Storage.lookup storage (goToLower p.Address) = some u) :
    (u.Nonce ≠ p.Nonce →
      Authenticate C ng storage (goToLower p.Address) p.Nonce p.Sig =
        (.fail u .authError, storage) ∧
      SigninHandler C ng tg storage p = (.status .unauthorized, storage)) ∧
    (∀ sig0 sig pub, u.Nonce = p.Nonce → MustDecode p.Sig = some sig0 →
      subV sig0 = some sig → C.SigToPub (C.TextHash p.Nonce) sig = some pub →
      u.Address ≠ goToLower (C.PubkeyToAddressHex pub) →
      Authenticate C ng storage (goToLower p.Address) p.Nonce p.Sig =
        (.fail u .authError, storage) ∧
      SigninHandler C ng tg storage p = (.status .unauthorized, storage)) := by
  constructor
  · intro hne
    have hauth :
        Authenticate C ng storage (goToLower p.Address) p.Nonce p.Sig =
          (.fail u .authError, storage) := by
      rw [Authenticate_lookup_some C ng storage (goToLower p.Address) p.Nonce p.Sig u hlu]
      exact authRest_nonce_ne C _ u storage hne
    exact ⟨hauth, SigninHandler_authError C ng tg storage p u storage hv hauth⟩
  · intro sig0 sig pub hn hdec hsub hrec haddr
    have hauth :
        Authenticate C ng storage (goToLower p.Address) p.Nonce p.Sig =
          (.fail u .authError, storage) := by
      rw [Authenticate_lookup_some C ng storage (goToLower p.Address) p.Nonce p.Sig u hlu]
      exact authRest_addr_ne C _ u storage sig0 sig pub hn hdec hsub hrec haddr
    exact ⟨hauth, SigninHandler_authError C ng tg storage p u storage hv hauth⟩

/-- Witness for C6: a concrete sign-in submitting nonce "2" against stored
nonce "1" is rejected as 401 Unauthorized. -/
theorem c6_mismatches_give_unauthorized_witness :
    Authenticate C0 (some "9") [(addrA, u0)] (goToLower addrA) "2" sigOk =
      (.fail u0 .authError, [(addrA, u0)]) ∧
    SigninHandler C0 (some "9") (some "tok") [(addrA, u0)]
        { Address := addrA, Nonce := "2", Sig := sigOk } =
      (.status .unauthorized, [(addrA, u0)]) :=
  (c6_mismatches_give_unauthorized C0 (some "9") (some "tok") [(addrA, u0)]
    { Address := addrA, Nonce := "2", Sig := sigOk } u0
    (by decide) (by decide)).1 (by decide)

/-- Claim C7: from a state where the (lowercased) address is absent,
registering it succeeds with 201 Created and registering it again answers
409 Conflict, leaving the state of the first registration; and
`CreateIfNotExists` is a check-and-insert whose success is equivalent to
the key being absent, all under one lock acquisition. -/
theorem c7_register_twice (storage : Storage) (g g' a : String)
    (ha : matchHexRegex a = true)
    (hnew : Storage.lookup storage (goToLower a) = none) :
    (RegisterHandler (some g) storage { Address := a } =
      (.created,
       Storage.insert storage (goToLower a) { Address := goToLower a, Nonce := g }) ∧
     RegisterHandler (some g')
        (Storage.insert storage (goToLower a) { Address := goToLower a, Nonce := g })
        { Address := a } =
      (.conflict,
       Storage.insert storage (goToLower a) { Address := goToLower a, Nonce := g })) ∧
    (∀ (m : Storage) (u : User),
      (∃ m', Storage.createIfNotExists m u = .ok m') ↔
        Storage.lookup m u.Address = none) := by
  refine ⟨⟨?_, ?_⟩, ?_⟩
  · unfold RegisterHandler RegisterPayload.Validate Storage.createIfNotExists
    rw [ha]
    simp [hnew]
  · unfold RegisterHandler RegisterPayload.Validate Storage.createIfNotExists
    rw [ha]
    simp [Storage.lookup_insert_self]
  · intro m u
    unfold Storage.createIfNotExists
    cases h : Storage.lookup m u.Address <;> simp

/-- Witness for C7: registering `addrA` into the empty registry answers
Created, and registering it again answers Conflict. -/
theorem c7_register_twice_witness :
    RegisterHandler (some "5") [] { Address := addrA } =
      (.created,
       Storage.insert [] (goToLower addrA) { Address := goToLower addrA, Nonce := "5" }) ∧
    RegisterHandler (some "6")
        (Storage.insert [] (goToLower addrA) { Address := goToLower addrA, Nonce := "5" })
        { Address := addrA } =
      (.conflict,
       Storage.insert [] (goToLower addrA) { Address := goToLower addrA, Nonce := "5" }) :=
  (c7_register_twice [] "5" "6" addrA (by decide) (by decide)).1

/-- Claim C8: a sign-in payload that fails validation — bad address
pattern, non-digit nonce, or empty signature — is rejected with 400
BadRequest before any registry access and leaves the registry unchanged,
and likewise a malformed address fails registration and nonce lookup. -/
theorem c8_validation_rejects_before_registry (C : EthCrypto)
    (ng tg : Option String) (storage : Storage) (p : SigninPayload) (a : String) :
    (p.Validate.isSome = true →
      SigninHandler C ng tg storage p = (.status .badRequest, storage)) ∧
    (matchHexRegex a = false →
      RegisterHandler ng storage { Address := a } = (.badRequest, storage) ∧
      (UserNonceHandler storage a).1 = .badRequest) := by
  constructor
  · intro hval
    cases h : p.Validate with
    | none => rw [h] at hval; simp at hval
    | some e => unfold SigninHandler; rw [h]
  · intro hbad
    constructor
    · unfold RegisterHandler RegisterPayload.Validate
      rw [hbad]
      rfl
    · unfold UserNonceHandler
      rw [hbad]
      rfl

/-- Witness for C8: the malformed address `0xzz` is rejected with 400 by
sign-in, registration and nonce lookup, with the registry untouched. -/
theorem c8_validation_rejects_witness :
    SigninHandler C0 (some "5") (some "tok") [(addrA, u0)]
        { Address := "0xzz", Nonce := "1", Sig := "0x00" } =
      (.status .badRequest, [(addrA, u0)]) ∧
    RegisterHandler (some "5") [(addrA, u0)] { Address := "0xzz" } =
      (.badRequest, [(addrA, u0)]) ∧
    (UserNonceHandler [(addrA, u0)] "0xzz").1 = .badRequest :=
  ⟨(c8_validation_rejects_before_registry C0 (some "5") (some "tok") [(addrA, u0)]
      { Address := "0xzz", Nonce := "1", Sig := "0x00" } "0xzz").1 (by decide),
   (c8_validation_rejects_before_registry C0 (some "5") (some "tok") [(addrA, u0)]
      { Address := "0xzz", Nonce := "1", Sig := "0x00" } "0xzz").2 (by decide)⟩

/-- Claim C9: every handler lowercases the input address before touching
the registry, so two case variants of one valid address resolve to the
same single record: registering via one variant makes the nonce lookup
via the other variant find it, a second registration via the other
variant conflicts instead of creating a duplicate, and a sign-in via the
other variant authenticates against that very record, rotating its nonce
in place under the one lowercase key. -/
theorem c9_lowercase_is_canonical (storage : Storage) (g : String) (a b : String)
    (ha : matchHexRegex a = true) (hb : matchHexRegex b = true)
    (hab : goToLower a = goToLower b)
    (hnew : Storage.lookup storage (goToLower a) = none) :
    RegisterHandler (some g) storage { Address := a } =
      (.created,
       Storage.insert storage (goToLower a) { Address := goToLower a, Nonce := g }) ∧
    UserNonceHandler
        (Storage.insert storage (goToLower a) { Address := goToLower a, Nonce := g }) b =
      (.ok, some g) ∧
    (RegisterHandler (some g)
        (Storage.insert storage (goToLower a) { Address := goToLower a, Nonce := g })
        { Address := b }).1 = .conflict ∧
    (∀ (C : EthCrypto) (g' tok : String) (p : SigninPayload)
        (sig0 sig : List Nat) (pub : PubKey),
      p.Address = b → p.Validate = none → p.Nonce = g →
      MustDecode p.Sig = some sig0 → subV sig0 = some sig →
      C.SigToPub (C.TextHash p.Nonce) sig = some pub →
      goToLower a = goToLower (C.PubkeyToAddressHex pub) →
      SigninHandler C (some g') (some tok)
          (Storage.insert storage (goToLower a) { Address := goToLower a, Nonce := g }) p =
        (.status .ok,
         Storage.insert
           (Storage.insert storage (goToLower a) { Address := goToLower a, Nonce := g })
           (goToLower a) { Address := goToLower a, Nonce := g' })) := by
  refine ⟨?_, ?_, ?_, ?_⟩
  · unfold RegisterHandler RegisterPayload.Validate Storage.createIfNotExists
    rw [ha]
    simp [hnew]
  · unfold UserNonceHandler Storage.get
    rw [hb, ← hab, Storage.lookup_insert_self]
    rfl
  · unfold RegisterHandler RegisterPayload.Validate Storage.createIfNotExists
    rw [hb, ← hab]
    simp [Storage.lookup_insert_self]
  · intro C g' tok p sig0 sig pub hpb hpv hpn hdec hsub hrec hpub
    have hlu :
        Storage.lookup
            (Storage.insert storage (goToLower a) { Address := goToLower a, Nonce := g })
            (goToLower p.Address) =
          some { Address := goToLower a, Nonce := g } := by
      rw [hpb, ← hab]
      exact Storage.lookup_insert_self storage (goToLower a) _
    have hauth :
        Authenticate C (some g')
            (Storage.insert storage (goToLower a) { Address := goToLower a, Nonce := g })
            (goToLower p.Address) p.Nonce p.Sig =
          (.ok { Address := goToLower a, Nonce := g' },
           Storage.insert
             (Storage.insert storage (goToLower a) { Address := goToLower a, Nonce := g })
             (goToLower a) { Address := goToLower a, Nonce := g' }) := by
      rw [Authenticate_lookup_some C (some g') _ (goToLower p.Address) p.Nonce p.Sig _ hlu]
      exact authRest_ok C _ _ _ sig0 sig pub g' hpn.symm hdec hsub hrec hpub rfl
    exact SigninHandler_ok C (some g') tok _ p _ _ hpv hauth

/-- Witness for C9: registering the uppercase variant of `addrA` makes the
nonce lookup via the lowercase form find the same record, re-registering
the lowercase form conflicts, and a sign-in via the lowercase form
authenticates against that record, rotating its nonce from "5" to "9"
under the single lowercase key. -/
theorem c9_lowercase_is_canonical_witness :
    RegisterHandler (some "5") [] { Address := "0xAAAAAAAAAAAAAAAAAAAAAAAAAAAAAAAAAAAAAAAA" } =
      (.created,
       Storage.insert [] (goToLower "0xAAAAAAAAAAAAAAAAAAAAAAAAAAAAAAAAAAAAAAAA")
         { Address := goToLower "0xAAAAAAAAAAAAAAAAAAAAAAAAAAAAAAAAAAAAAAAA", Nonce := "5" }) ∧
    UserNonceHandler
        (Storage.insert [] (goToLower "0xAAAAAAAAAAAAAAAAAAAAAAAAAAAAAAAAAAAAAAAA")
          { Address := goToLower "0xAAAAAAAAAAAAAAAAAAAAAAAAAAAAAAAAAAAAAAAA", Nonce := "5" })
        addrA =
      (.ok, some "5") ∧
    (RegisterHandler (some "5")
        (Storage.insert [] (goToLower "0xAAAAAAAAAAAAAAAAAAAAAAAAAAAAAAAAAAAAAAAA")
          { Address := goToLower "0xAAAAAAAAAAAAAAAAAAAAAAAAAAAAAAAAAAAAAAAA", Nonce := "5" })
        { Address := addrA }).1 = .conflict ∧
    SigninHandler C0 (some "9") (some "tok")
        (Storage.insert [] (goToLower "0xAAAAAAAAAAAAAAAAAAAAAAAAAAAAAAAAAAAAAAAA")
          { Address := goToLower "0xAAAAAAAAAAAAAAAAAAAAAAAAAAAAAAAAAAAAAAAA", Nonce := "5" })
        { Address := addrA, Nonce := "5", Sig := sigOk } =
      (.status .ok,
       Storage.insert
         (Storage.insert [] (goToLower "0xAAAAAAAAAAAAAAAAAAAAAAAAAAAAAAAAAAAAAAAA")
           { Address := goToLower "0xAAAAAAAAAAAAAAAAAAAAAAAAAAAAAAAAAAAAAAAA", Nonce := "5" })
         (goToLower "0xAAAAAAAAAAAAAAAAAAAAAAAAAAAAAAAAAAAAAAAA")
         { Address := goToLower "0xAAAAAAAAAAAAAAAAAAAAAAAAAAAAAAAAAAAAAAAA", Nonce := "9" }) :=
  have h :=
    c9_lowercase_is_canonical [] "5" "0xAAAAAAAAAAAAAAAAAAAAAAAAAAAAAAAAAAAAAAAA" addrA
      (by decide) (by decide) (by decide) (by decide)
  ⟨h.1, h.2.1, h.2.2.1,
   h.2.2.2 C0 "9" "tok" { Address := addrA, Nonce := "5", Sig := sigOk }
     (List.replicate 65 0) (List.replicate 64 0 ++ [229]) "pk"
     rfl (by decide) rfl (by decide) (by decide) rfl (by decide)⟩

/-- Claim C10: when `Authenticate` fails with `AuthError` on a nonce
mismatch or a recovered-address mismatch, its first return value is the
stored user record itself, whose `Nonce` field is the user's current real
nonce. -/
theorem c10_fail_returns_stored_record (C : EthCrypto) (ng : Option String)
    (storage : Storage) (address nonce sigHex : String) (u : User)
    (hlu : Storage.lookup storage address = some u) :
    (u.Nonce ≠ nonce →
      (Authenticate C ng storage address nonce sigHex).1 = .fail u .authError) ∧
    (∀ sig0 sig pub, u.Nonce = nonce → MustDecode sigHex = some sig0 →
      subV sig0 = some sig → C.SigToPub (C.TextHash nonce) sig = some pub →
      u.Address ≠ goToLower (C.PubkeyToAddressHex pub) →
      (Authenticate C ng storage address nonce sigHex).1 = .fail u .authError) := by
  constructor
  · intro hne
    rw [Authenticate_lookup_some C ng storage address nonce sigHex u hlu,
        authRest_nonce_ne C _ u storage hne]
  · intro sig0 sig pub hn hdec hsub hrec haddr
    rw [Authenticate_lookup_some C ng storage address nonce sigHex u hlu,
        authRest_addr_ne C _ u storage sig0 sig pub hn hdec hsub hrec haddr]

/-- Witness for C10: a signature recovering to `addrB` while claiming
`addrA` makes `Authenticate` hand the stored record (real nonce "1") back
to its caller alongside `AuthError`. -/
theorem c10_fail_returns_stored_record_witness :
    (Authenticate Cother (some "9") [(addrA, u0)] addrA "1" sigOk).1 =
      .fail u0 .authError :=
  (c10_fail_returns_stored_record Cother (some "9") [(addrA, u0)] addrA "1" sigOk u0
      (by decide)).2
    (List.replicate 65 0) (List.replicate 64 0 ++ [229]) "pk"
    (by decide) (by decide) (by decide) rfl (by decide)

end Backend
